import Mathlib

/-!
Verification of the zezen debt-tracking server against its specification.

The repository contains two server variants implementing the same HTTP API:
`src/server.js` and `src/unnamed/part_001` (an Express/PostgreSQL server),
plus the browser client `src/unnamed/part_000`.  This file embeds the route
handlers as pure Lean functions over an explicit database state.

Modelling conventions:
- SQL DECIMAL(15,2) amounts are embedded as exact integers (a fixed-point
  count of cents).  The JavaScript code converts the stored decimal strings
  back to numbers with `parseFloat(x) || 0`; on in-range decimal values that
  conversion is the identity, so the embedding applies exact arithmetic.
- SERIAL primary keys order rows by insertion; every query in the sources
  that orders items does so with ORDER BY id, which the embedding realises
  by keeping each table as a list in insertion order.
- Timestamps and dates are embedded as natural-number ordinals, since the
  routes only ever compare them.
- bcrypt is an external dependency; the embedding uses its documented
  contract (compare succeeds exactly on the hashed password).
-/

/-- Row of the creditors or debtors table (the two tables have identical
columns). -/
structure Party where
  id : Nat
  userId : Nat
  full_name : String
  contact : String
  gender : String
  language : String
  deriving Repr, DecidableEq

/-- Row of the creditor_items or debtor_items table.  The SERIAL id column
is represented by the position of the row in the table list (rows are only
ever appended, and the sources read items with ORDER BY id). -/
structure Item where
  parentId : Nat
  reason : String
  amount : Int
  date_incurred : Option String
  due_date : Option String
  status : String
  notes : String
  deriving Repr, DecidableEq

/-- Row of the payments table. -/
structure Payment where
  id : Nat
  userId : Nat
  ptype : String
  related_id : Option Nat
  amount : Int
  payment_date : Nat
  payment_method : String
  reference : String
  notes : String
  created_at : Nat
  deriving Repr, DecidableEq

/-- Row of the users table (created_at and the contact columns that no
route reads are carried verbatim where a claim touches them). -/
structure User where
  id : Nat
  username : String
  email : String
  password_hash : String
  full_name : String
  phone : String
  address : String
  is_admin : Bool
  must_change_password : Bool
  deriving Repr, DecidableEq

/-- The relational state the ledger routes read and write. -/
structure DB where
  creditors : List Party
  creditorItems : List Item
  debtors : List Party
  debtorItems : List Item
  payments : List Payment
  deriving Repr, DecidableEq

/-- JavaScript `v || d` on an optional string field: absent and empty
strings are falsy and fall back to the default. -/
def jsOr (v : Option String) (d : String) : String :=
  match v with
  | none => d
  | some s => if s = "" then d else s

/-- JavaScript `v || null` on an optional string field: an empty string is
falsy and becomes null. -/
def jsOrNone (v : Option String) : Option String :=
  match v with
  | some "" => none
  | x => x

/-- Request body for a creditor/debtor item, as destructured by the routes;
every field may be absent. -/
structure ItemReq where
  reason : Option String
  amount : Option Int
  date_incurred : Option String
  due_date : Option String
  status : Option String
  notes : Option String
  deriving Repr, DecidableEq

/-- Request body for the creditor/debtor parent fields. -/
structure PartyReq where
  full_name : String
  contact : Option String
  gender : Option String
  language : Option String
  deriving Repr, DecidableEq

/-- The INSERT of one submitted item under parent `pid`, applying the
defaults of the route: reason and notes fall back to the empty string,
date_incurred and due_date to null, status to "pending".  (For the amount,
the JavaScript fallback `|| 0`
coincides with defaulting an absent value to 0, since 0 is its own
fallback.) -/
def itemRowOfReq (pid : Nat) (it : ItemReq) : Item :=
  { parentId := pid
    reason := jsOr it.reason ""
    amount := it.amount.getD 0
    date_incurred := jsOrNone it.date_incurred
    due_date := jsOrNone it.due_date
    status := jsOr it.status "pending"
    notes := jsOr it.notes "" }

/-- The UPDATE of the parent columns, applying the defaults of the route:
contact falls back to the empty string, gender to "male", language to
"english". -/
def applyPartyReq (req : PartyReq) (c : Party) : Party :=
  { c with
    full_name := req.full_name
    contact := jsOr req.contact ""
    gender := jsOr req.gender "male"
    language := jsOr req.language "english" }

/-- Items belonging to a parent row: `SELECT * FROM creditor_items WHERE
creditor_id = $1 ORDER BY id` (list order is id order). -/
def itemsFor (items : List Item) (pid : Nat) : List Item :=
  items.filter fun i => i.parentId == pid

/-- A creditor/debtor as returned by the list routes: the row, its items,
and the computed totals. -/
structure EnrichedParty where
  row : Party
  items : List Item
  total_amount : Int
  pending_amount : Int
  deriving Repr, DecidableEq

/-- Enrichment step of GET /api/creditors and GET /api/debtors (both
variants, src/server.js lines 528-545 and src/unnamed/part_001 lines
454-458): attach the items of the row, `total_amount` as the reduce-sum of
all item amounts, and `pending_amount` as the reduce-sum of the amounts of
the items whose status is "pending". -/
def enrich (items : List Item) (c : Party) : EnrichedParty :=
  let its := itemsFor items c.id
  { row := c
    items := its
    total_amount := (its.map Item.amount).sum
    pending_amount := (((its.filter fun i => i.status == "pending").map Item.amount)).sum }

/-- Ordering used by `ORDER BY full_name`. -/
def nameLe (c d : Party) : Prop :=
  c.full_name ≤ d.full_name

instance : DecidableRel nameLe := fun c d =>
  inferInstanceAs (Decidable (c.full_name ≤ d.full_name))

/-- GET /api/creditors (src/server.js lines 521-551, src/unnamed/part_001
lines 451-463): the creditor rows of the session user, ordered by full
name, each enriched with items and totals. -/
def listCreditors (db : DB) (u : Nat) : List EnrichedParty :=
  (((db.creditors.filter fun c => c.userId == u).insertionSort nameLe).map
    (enrich db.creditorItems))

/-- GET /api/debtors (src/server.js lines 631-661, src/unnamed/part_001
lines 500-512): mirror of `listCreditors` over the debtor tables. -/
def listDebtors (db : DB) (u : Nat) : List EnrichedParty :=
  (((db.debtors.filter fun c => c.userId == u).insertionSort nameLe).map
    (enrich db.debtorItems))

/-- Error outcomes of the JSON routes (HTTP status plus message). -/
inductive ApiErr where
  | notFound
  | weakPassword
  | invalidCurrentPassword
  | cannotDeleteSelf
  | serverError
  deriving Repr, DecidableEq

/-- PUT /api/creditors/:id in src/server.js lines 579-610: a SELECT first
verifies that the id is owned by the session user (404 otherwise); then the
parent columns are updated, all rows of creditor_items with that creditor
id are deleted, and the submitted items are inserted in order. -/
def updateCreditor (db : DB) (u cid : Nat) (req : PartyReq) (items : List ItemReq) :
    Except ApiErr DB :=
  if db.creditors.any fun c => c.id == cid && c.userId == u then
    Except.ok { db with
      creditors := db.creditors.map fun c =>
        if c.id == cid then applyPartyReq req c else c
      creditorItems :=
        (db.creditorItems.filter fun i => i.parentId != cid) ++
          items.map (itemRowOfReq cid) }
  else Except.error ApiErr.notFound

/-- PUT /api/debtors/:id in src/server.js lines 689-719: mirror of
`updateCreditor` over the debtor tables. -/
def updateDebtor (db : DB) (u did : Nat) (req : PartyReq) (items : List ItemReq) :
    Except ApiErr DB :=
  if db.debtors.any fun c => c.id == did && c.userId == u then
    Except.ok { db with
      debtors := db.debtors.map fun c =>
        if c.id == did then applyPartyReq req c else c
      debtorItems :=
        (db.debtorItems.filter fun i => i.parentId != did) ++
          items.map (itemRowOfReq did) }
  else Except.error ApiErr.notFound

/-- DELETE /api/creditors/:id in src/server.js lines 612-625: a SELECT
first verifies ownership (404 otherwise); then the creditor items and the
creditor row are deleted. -/
def deleteCreditor (db : DB) (u cid : Nat) : Except ApiErr DB :=
  if db.creditors.any fun c => c.id == cid && c.userId == u then
    Except.ok { db with
      creditorItems := db.creditorItems.filter fun i => i.parentId != cid
      creditors := db.creditors.filter fun c => c.id != cid }
  else Except.error ApiErr.notFound

/-- PUT /api/creditors/:id in src/unnamed/part_001 lines 477-487: there is
no ownership SELECT.  The parent UPDATE carries `WHERE id = $5 AND
user_id = $6`, but the DELETE of creditor_items and the INSERT of the
submitted items use the path id alone, and the route answers success
unconditionally. -/
def updateCreditorV2 (db : DB) (u cid : Nat) (req : PartyReq) (items : List ItemReq) : DB :=
  { db with
    creditors := db.creditors.map fun c =>
      if c.id == cid && c.userId == u then applyPartyReq req c else c
    creditorItems :=
      (db.creditorItems.filter fun i => i.parentId != cid) ++
        items.map (itemRowOfReq cid) }

/-- DELETE /api/creditors/:id in src/unnamed/part_001 lines 489-497: the
DELETE of creditor_items uses the path id alone; only the parent DELETE is
owner-scoped. -/
def deleteCreditorV2 (db : DB) (u cid : Nat) : DB :=
  { db with
    creditorItems := db.creditorItems.filter fun i => i.parentId != cid
    creditors := db.creditors.filter fun c => !(c.id == cid && c.userId == u) }

/-- Request body of POST /api/payments. -/
structure PaymentReq where
  ptype : String
  related_id : Option Nat
  amount : Int
  payment_date : Option Nat
  payment_method : Option String
  reference : Option String
  notes : Option String
  deriving Repr, DecidableEq

/-- POST /api/payments in src/server.js lines 752-766: inserts one row into
the payments table (SERIAL id modelled as the next row ordinal; `today`
stands for `new Date()`, the default payment date).  Nothing else is
touched. -/
def recordPayment (db : DB) (u today : Nat) (req : PaymentReq) : DB :=
  { db with
    payments := db.payments ++
      [{ id := db.payments.length + 1
         userId := u
         ptype := req.ptype
         related_id := req.related_id
         amount := req.amount
         payment_date := req.payment_date.getD today
         payment_method := jsOr req.payment_method ""
         reference := jsOr req.reference ""
         notes := jsOr req.notes ""
         created_at := today }] }

/-- Ordering realised by `ORDER BY payment_date DESC, created_at DESC`:
later payment dates first, later creation times first among equal dates. -/
def paymentLe (p q : Payment) : Prop :=
  q.payment_date < p.payment_date ∨
    (q.payment_date = p.payment_date ∧ q.created_at ≤ p.created_at)

instance : DecidableRel paymentLe := fun p q =>
  inferInstanceAs (Decidable (q.payment_date < p.payment_date ∨
    (q.payment_date = p.payment_date ∧ q.created_at ≤ p.created_at)))

instance : IsTotal Payment paymentLe where
  total p q := by
    rcases Nat.lt_trichotomy q.payment_date p.payment_date with h | h | h
    · exact Or.inl (Or.inl h)
    · rcases Nat.le_total q.created_at p.created_at with h2 | h2
      · exact Or.inl (Or.inr ⟨h, h2⟩)
      · exact Or.inr (Or.inr ⟨h.symm, h2⟩)
    · exact Or.inr (Or.inl h)

instance : IsTrans Payment paymentLe where
  trans p q r hpq hqr := by
    rcases hpq with h1 | ⟨h1, h2⟩ <;> rcases hqr with h3 | ⟨h3, h4⟩ <;>
      unfold paymentLe <;> omega

/-- Ordering realised by `ORDER BY payment_date DESC` alone. -/
def dateLe (p q : Payment) : Prop :=
  q.payment_date ≤ p.payment_date

instance : DecidableRel dateLe := fun p q =>
  inferInstanceAs (Decidable (q.payment_date ≤ p.payment_date))

instance : IsTotal Payment dateLe where
  total p q := Nat.le_total q.payment_date p.payment_date

instance : IsTrans Payment dateLe where
  trans _ _ _ h1 h2 := Nat.le_trans h2 h1

/-- GET /api/payments in src/server.js lines 740-750: the payments of the
session user, ORDER BY payment_date DESC, created_at DESC. -/
def listPayments (db : DB) (u : Nat) : List Payment :=
  ((db.payments.filter fun p => p.userId == u).insertionSort paymentLe)

/-- GET /api/payments in src/unnamed/part_001 lines 549-556: the payments
of the session user, ORDER BY payment_date DESC with no tiebreak.  SQL
leaves the relative order of equal dates to the engine; the embedding
realises one legal engine behaviour (equal-date rows in table order). -/
def listPaymentsV2 (db : DB) (u : Nat) : List Payment :=
  ((db.payments.filter fun p => p.userId == u).insertionSort dateLe)

/-- Dashboard statistics record returned by GET /api/dashboard/stats. -/
structure DashboardStats where
  total_owed_to_creditors : Int
  total_owed_by_debtors : Int
  net_position : Int
  creditor_count : Nat
  debtor_count : Nat
  deriving Repr, DecidableEq

/-- One aggregate of GET /api/dashboard/stats: `SELECT COALESCE(SUM(amount),
0) FROM items JOIN parents ON parentId = parents.id WHERE parents.user_id =
u AND status = "pending"`.  Parent ids are a SERIAL primary key, hence
unique, so the join matches each item at most once. -/
def pendingJoinTotal (parents : List Party) (items : List Item) (u : Nat) : Int :=
  (((items.filter fun i =>
      i.status == "pending" &&
        parents.any fun p => p.id == i.parentId && p.userId == u).map
    Item.amount)).sum

/-- GET /api/dashboard/stats (src/server.js lines 786-825,
src/unnamed/part_001 lines 578-594): pending totals over both joins, their
signed difference, and the row counts. -/
def dashboardStats (db : DB) (u : Nat) : DashboardStats :=
  { total_owed_to_creditors := pendingJoinTotal db.creditors db.creditorItems u
    total_owed_by_debtors := pendingJoinTotal db.debtors db.debtorItems u
    net_position :=
      pendingJoinTotal db.debtors db.debtorItems u -
        pendingJoinTotal db.creditors db.creditorItems u
    creditor_count := (db.creditors.filter fun c => c.userId == u).length
    debtor_count := (db.debtors.filter fun c => c.userId == u).length }

/-- Hash of the external bcrypt dependency (out of scope per the spec; the
standard contract is a one-way hash whose verify succeeds exactly on the
hashed password, which this embedding realises by tagging). -/
def bcryptHash (password : String) : String :=
  "bcrypt$" ++ password

/-- Verify of the external bcrypt dependency. -/
def bcryptCompare (password hash : String) : Bool :=
  hash == bcryptHash password

/-- PUT /api/auth/password (src/server.js lines 365-392,
src/unnamed/part_001 lines 333-359): a new password shorter than 5
characters is rejected before anything is read or written (an absent
newPassword is the empty string, also rejected); then the current password
is checked against the stored hash; on success the hash is rewritten and
must_change_password cleared.  Returns the response alongside the users
table after the request. -/
def changePassword (users : List User) (sess : Nat) (currentPassword newPassword : String) :
    Except ApiErr Unit × List User :=
  if newPassword.length < 5 then (Except.error ApiErr.weakPassword, users)
  else
    match users.find? fun w => w.id == sess with
    | none => (Except.error ApiErr.serverError, users)
    | some w =>
      if bcryptCompare currentPassword w.password_hash then
        (Except.ok (), users.map fun v =>
          if v.id == sess then
            { v with password_hash := bcryptHash newPassword, must_change_password := false }
          else v)
      else (Except.error ApiErr.invalidCurrentPassword, users)

/-- PUT /api/auth/force-password-change (src/server.js lines 395-414,
src/unnamed/part_001 lines 361-383): the same length rule, with no
current-password check. -/
def forceChangePassword (users : List User) (sess : Nat) (newPassword : String) :
    Except ApiErr Unit × List User :=
  if newPassword.length < 5 then (Except.error ApiErr.weakPassword, users)
  else
    (Except.ok (), users.map fun v =>
      if v.id == sess then
        { v with password_hash := bcryptHash newPassword, must_change_password := false }
      else v)

/-- DELETE /api/admin/users/:id (src/server.js lines 503-515,
src/unnamed/part_001 lines 438-448): a target id equal to the session user
id is rejected with 400 before any query; otherwise the row with that id is
deleted. -/
def deleteUserRoute (users : List User) (sess target : Nat) :
    Except ApiErr Unit × List User :=
  if target == sess then (Except.error ApiErr.cannotDeleteSelf, users)
  else (Except.ok (), users.filter fun w => w.id != target)

/-- Language fallback of the statement generators: a falsy language field
becomes "english" (src/unnamed/part_000 lines 693 and 777). -/
def statementLang (language : String) : String :=
  if language = "" then "english" else language

/-- Salutation title of generateCreditorStatement and
generateDebtorStatement (src/unnamed/part_000 lines 694 and 778, the same
expression in both): a female record gets "Mme" in french and "Mrs." in
english, any other gender gets "M." in french and "Mr." in english. -/
def statementTitleOf (r : Party) : String :=
  if r.gender = "female" then
    (if statementLang r.language = "french" then "Mme" else "Mrs.")
  else
    (if statementLang r.language = "french" then "M." else "Mr.")

/-! Helper lemmas shared by the claim theorems. -/

/-- Replacing the items of parent `cid` (filter out, then append rows that
all carry `cid`) leaves exactly the appended rows under that parent. -/
theorem itemsFor_replace (l new : List Item) (cid : Nat)
    (h : ∀ i ∈ new, i.parentId = cid) :
    itemsFor ((l.filter fun i => i.parentId != cid) ++ new) cid = new := by
  unfold itemsFor
  rw [List.filter_append]
  have h1 : ((l.filter fun i => i.parentId != cid).filter fun i => i.parentId == cid) = [] := by
    rw [List.filter_filter]
    apply List.filter_eq_nil_iff.mpr
    intro a _
    simp
  have h2 : (new.filter fun i => i.parentId == cid) = new := by
    apply List.filter_eq_self.mpr
    intro a ha
    simpa using h a ha
  rw [h1, h2, List.nil_append]

/-- Rows produced by `itemRowOfReq pid` carry parent id `pid`. -/
theorem itemRowOfReq_parent (pid : Nat) (items : List ItemReq) :
    ∀ i ∈ items.map (itemRowOfReq pid), i.parentId = pid := by
  intro i hi
  rcases List.mem_map.1 hi with ⟨a, -, rfl⟩
  rfl

/-- Summing the amounts of the pending items equals summing, over all
items, the amount of the pending ones and zero for the rest. -/
theorem sum_pending_filter_eq_ite (l : List Item) :
    (((l.filter fun i => i.status == "pending").map Item.amount)).sum =
      (l.map fun i => if i.status == "pending" then i.amount else 0).sum := by
  induction l with
  | nil => rfl
  | cons a t ih =>
    by_cases h : a.status = "pending" <;>
      simp [List.filter_cons, beq_iff_eq, h, ih]

/-! Claim theorems. -/

/-- C2: for every creditor (and debtor) owned by the caller and every
submitted item list, a successful update replaces the stored item set
entirely: afterwards the items stored for that parent are exactly the
submitted items as inserted by the route (same count, same contents), with
no item of the previous set surviving. -/
theorem update_replaces_item_set :
    ∀ (db : DB) (u cid : Nat) (req : PartyReq) (items : List ItemReq) (db₂ : DB),
      (updateCreditor db u cid req items = Except.ok db₂ →
        itemsFor db₂.creditorItems cid = items.map (itemRowOfReq cid) ∧
        (itemsFor db₂.creditorItems cid).length = items.length) ∧
      (updateDebtor db u cid req items = Except.ok db₂ →
        itemsFor db₂.debtorItems cid = items.map (itemRowOfReq cid) ∧
        (itemsFor db₂.debtorItems cid).length = items.length) := by
  intro db u cid req items db₂
  constructor
  · intro h
    unfold updateCreditor at h
    split at h
    · cases h
      have he := itemsFor_replace db.creditorItems (items.map (itemRowOfReq cid)) cid
        (itemRowOfReq_parent cid items)
      exact ⟨he, by rw [he, List.length_map]⟩
    · simp at h
  · intro h
    unfold updateDebtor at h
    split at h
    · cases h
      have he := itemsFor_replace db.debtorItems (items.map (itemRowOfReq cid)) cid
        (itemRowOfReq_parent cid items)
      exact ⟨he, by rw [he, List.length_map]⟩
    · simp at h

/-- C3: every record returned by listCreditors or listDebtors carries a
total_amount equal to the exact sum of the amounts of its items, and 0 when
it has no items. -/
theorem list_total_amount_exact :
    ∀ (db : DB) (u : Nat) (r : EnrichedParty),
      (r ∈ listCreditors db u →
        r.total_amount = (r.items.map Item.amount).sum ∧
        (r.items = [] → r.total_amount = 0)) ∧
      (r ∈ listDebtors db u →
        r.total_amount = (r.items.map Item.amount).sum ∧
        (r.items = [] → r.total_amount = 0)) := by
  intro db u r
  constructor <;> intro hr <;>
    rcases List.mem_map.1 hr with ⟨c, -, rfl⟩ <;>
    refine ⟨rfl, fun h => ?_⟩ <;>
    · rw [show ∀ its, (enrich its c).total_amount = ((enrich its c).items.map Item.amount).sum
        from fun _ => rfl, h]
      simp

/-- C4: every record returned by listCreditors or listDebtors carries a
pending_amount equal to the sum of the amounts of exactly its items with
status "pending"; every item of another status contributes zero. -/
theorem list_pending_amount_exact :
    ∀ (db : DB) (u : Nat) (r : EnrichedParty),
      (r ∈ listCreditors db u →
        r.pending_amount =
          (((r.items.filter fun i => i.status == "pending").map Item.amount)).sum ∧
        r.pending_amount =
          (r.items.map fun i => if i.status == "pending" then i.amount else 0).sum) ∧
      (r ∈ listDebtors db u →
        r.pending_amount =
          (((r.items.filter fun i => i.status == "pending").map Item.amount)).sum ∧
        r.pending_amount =
          (r.items.map fun i => if i.status == "pending" then i.amount else 0).sum) := by
  intro db u r
  constructor <;> intro hr <;>
    rcases List.mem_map.1 hr with ⟨c, -, rfl⟩ <;>
    exact ⟨rfl, sum_pending_filter_eq_ite _⟩

/-- C5: dashboard stats give a signed net position equal to the debtor
pending total minus the creditor pending total, and each pending total is 0
when the user owns no matching rows. -/
theorem dashboard_net_and_defaults :
    ∀ (db : DB) (u : Nat),
      (dashboardStats db u).net_position =
        (dashboardStats db u).total_owed_by_debtors -
          (dashboardStats db u).total_owed_to_creditors ∧
      ((∀ p ∈ db.creditors, p.userId ≠ u) →
        (dashboardStats db u).total_owed_to_creditors = 0) ∧
      ((∀ p ∈ db.debtors, p.userId ≠ u) →
        (dashboardStats db u).total_owed_by_debtors = 0) := by
  intro db u
  have hz : ∀ (parents : List Party) (items : List Item),
      (∀ p ∈ parents, p.userId ≠ u) → pendingJoinTotal parents items u = 0 := by
    intro parents items h
    unfold pendingJoinTotal
    have : (items.filter fun i =>
        i.status == "pending" && parents.any fun p => p.id == i.parentId && p.userId == u) = [] := by
      apply List.filter_eq_nil_iff.mpr
      intro i _
      simp only [Bool.and_eq_true, List.any_eq_true, beq_iff_eq, not_and]
      rintro - ⟨p, hp, -, hpu⟩
      exact h p hp hpu
    rw [this]
    rfl
  exact ⟨rfl, hz db.creditors db.creditorItems, hz db.debtors db.debtorItems⟩

/-- C6: recording a payment writes only to the payments table; every other
table, and therefore every listed record with its total_amount and
pending_amount, is unchanged. -/
theorem record_payment_frame :
    ∀ (db : DB) (u today : Nat) (req : PaymentReq) (v : Nat),
      (recordPayment db u today req).creditors = db.creditors ∧
      (recordPayment db u today req).creditorItems = db.creditorItems ∧
      (recordPayment db u today req).debtors = db.debtors ∧
      (recordPayment db u today req).debtorItems = db.debtorItems ∧
      listCreditors (recordPayment db u today req) v = listCreditors db v ∧
      listDebtors (recordPayment db u today req) v = listDebtors db v :=
  fun _ _ _ _ _ => ⟨rfl, rfl, rfl, rfl, rfl, rfl⟩

/-- C7: a new password shorter than 5 characters is rejected by both the
change-password and the force-change-password route, and the users table
(hashes and must_change_password flags included) is left unchanged. -/
theorem weak_password_rejected :
    ∀ (users : List User) (sess : Nat) (currentPassword newPassword : String),
      newPassword.length < 5 →
        changePassword users sess currentPassword newPassword =
          (Except.error ApiErr.weakPassword, users) ∧
        forceChangePassword users sess newPassword =
          (Except.error ApiErr.weakPassword, users) := by
  intro users sess cur newPw h
  constructor
  · unfold changePassword
    rw [if_pos h]
  · unfold forceChangePassword
    rw [if_pos h]

/-- C8 (amended): the server.js listPayments returns the payments of the
user sorted by payment date descending with creation time descending as
tiebreak; the part_001 variant sorts by payment date descending only.  Both
return exactly the rows of the user. -/
theorem list_payments_order :
    ∀ (db : DB) (u : Nat),
      List.Sorted paymentLe (listPayments db u) ∧
      List.Perm (listPayments db u) (db.payments.filter fun p => p.userId == u) ∧
      List.Sorted dateLe (listPaymentsV2 db u) ∧
      List.Perm (listPaymentsV2 db u) (db.payments.filter fun p => p.userId == u) :=
  fun _ _ =>
    ⟨List.sorted_insertionSort paymentLe _, List.perm_insertionSort paymentLe _,
      List.sorted_insertionSort dateLe _, List.perm_insertionSort dateLe _⟩

/-- C9: the salutation title of the statement generators at every gender in
{male, female} and language in {english, french}. -/
theorem statement_title_cases :
    ∀ r : Party,
      ((r.gender = "male" ∧ r.language = "english") → statementTitleOf r = "Mr.") ∧
      ((r.gender = "male" ∧ r.language = "french") → statementTitleOf r = "M.") ∧
      ((r.gender = "female" ∧ r.language = "english") → statementTitleOf r = "Mrs.") ∧
      ((r.gender = "female" ∧ r.language = "french") → statementTitleOf r = "Mme") := by
  intro r
  refine ⟨fun ⟨hg, hl⟩ => ?_, fun ⟨hg, hl⟩ => ?_, fun ⟨hg, hl⟩ => ?_, fun ⟨hg, hl⟩ => ?_⟩ <;>
    simp [statementTitleOf, statementLang, hg, hl]

/-- C10: the admin delete-user route rejects a target equal to the session
user and deletes nothing; otherwise it removes exactly the rows with the
target id, so any deletion implies the target differs from the caller. -/
theorem delete_user_self_guard :
    ∀ (users : List User) (sess target : Nat),
      (target = sess →
        deleteUserRoute users sess target =
          (Except.error ApiErr.cannotDeleteSelf, users)) ∧
      (target ≠ sess →
        deleteUserRoute users sess target =
          (Except.ok (), users.filter fun w => w.id != target)) ∧
      ((deleteUserRoute users sess target).2 ≠ users → target ≠ sess) := by
  intro users sess target
  refine ⟨fun h => ?_, fun h => ?_, fun h2 hts => ?_⟩
  · simp [deleteUserRoute, h]
  · simp [deleteUserRoute, h]
  · exact h2 (by simp [deleteUserRoute, hts])

/-! Concrete database states used by the closed theorems below. -/

instance {ε α : Type} [DecidableEq ε] [DecidableEq α] : DecidableEq (Except ε α) := fun x y =>
  match x, y with
  | Except.ok a, Except.ok b =>
    if h : a = b then Decidable.isTrue (congrArg Except.ok h)
    else Decidable.isFalse (fun he => h (Except.ok.inj he))
  | Except.error a, Except.error b =>
    if h : a = b then Decidable.isTrue (congrArg Except.error h)
    else Decidable.isFalse (fun he => h (Except.error.inj he))
  | Except.ok _, Except.error _ => Decidable.isFalse (fun he => Except.noConfusion he)
  | Except.error _, Except.ok _ => Decidable.isFalse (fun he => Except.noConfusion he)

/-- State with one creditor owned by user 1 holding one pending item. -/
def c1db : DB :=
  { creditors := [{ id := 1, userId := 1, full_name := "Alice", contact := "",
                    gender := "male", language := "english" }]
    creditorItems := [{ parentId := 1, reason := "loan", amount := 100,
                        date_incurred := none, due_date := none,
                        status := "pending", notes := "" }]
    debtors := [], debtorItems := [], payments := [] }

/-- Parent fields submitted by the foreign session of the C1 scenario. -/
def c1req : PartyReq :=
  { full_name := "Alice", contact := none, gender := none, language := none }

/-- C1: creditor 1 belongs to user 1, yet in the part_001 variant session
user 2 can strip its items by PUT or DELETE on the guessed id: only the
parent row queries are owner-scoped, the child-item DELETE is not.  The
server.js variant rejects both requests with 404 and changes nothing. -/
theorem cross_user_item_write_bug :
    (∀ c ∈ c1db.creditors, c.userId = 1) ∧
    updateCreditor c1db 2 1 c1req [] = Except.error ApiErr.notFound ∧
    deleteCreditor c1db 2 1 = Except.error ApiErr.notFound ∧
    itemsFor c1db.creditorItems 1 ≠ [] ∧
    itemsFor ((updateCreditorV2 c1db 2 1 c1req []).creditorItems) 1 = [] ∧
    itemsFor ((deleteCreditorV2 c1db 2 1).creditorItems) 1 = [] ∧
    (updateCreditorV2 c1db 2 1 c1req []).creditors = c1db.creditors := by
  decide

/-- State for the C2 witness: one creditor of user 1 with one old item. -/
def c2db : DB :=
  { creditors := [{ id := 1, userId := 1, full_name := "Alice", contact := "",
                    gender := "male", language := "english" }]
    creditorItems := [{ parentId := 1, reason := "old loan", amount := 40,
                        date_incurred := none, due_date := none,
                        status := "pending", notes := "" }]
    debtors := [], debtorItems := [], payments := [] }

/-- Parent fields of the C2 witness update. -/
def c2req : PartyReq :=
  { full_name := "Alice", contact := some "tel", gender := some "female",
    language := some "french" }

/-- The single submitted item of the C2 witness update. -/
def c2it : ItemReq :=
  { reason := some "new loan", amount := some 60, date_incurred := none,
    due_date := none, status := some "paid", notes := none }

/-- The state after the C2 witness update. -/
def c2db2 : DB :=
  { creditors := [{ id := 1, userId := 1, full_name := "Alice", contact := "tel",
                    gender := "female", language := "french" }]
    creditorItems := [itemRowOfReq 1 c2it]
    debtors := [], debtorItems := [], payments := [] }

/-- Witness for C2: a concrete successful update whose stored item set is
exactly the submitted one. -/
theorem update_replaces_item_set_w :
    updateCreditor c2db 1 1 c2req [c2it] = Except.ok c2db2 ∧
    itemsFor c2db2.creditorItems 1 = [c2it].map (itemRowOfReq 1) :=
  ⟨by decide, ((update_replaces_item_set c2db 1 1 c2req [c2it] c2db2).1 (by decide)).1⟩

/-- The creditor row of the C3 witness. -/
def c3cred : Party :=
  { id := 1, userId := 1, full_name := "Bob", contact := "", gender := "male",
    language := "english" }

/-- State for the C3 witness: creditor 1 with a pending 70 and a paid 30. -/
def c3db : DB :=
  { creditors := [c3cred]
    creditorItems :=
      [{ parentId := 1, reason := "a", amount := 70, date_incurred := none,
         due_date := none, status := "pending", notes := "" },
       { parentId := 1, reason := "b", amount := 30, date_incurred := none,
         due_date := none, status := "paid", notes := "" }]
    debtors := [], debtorItems := [], payments := [] }

/-- The record listed for the C3 witness creditor. -/
def c3r : EnrichedParty := enrich c3db.creditorItems c3cred

/-- Witness for C3: a listed record whose total is the exact item sum. -/
theorem list_total_amount_exact_w :
    c3r ∈ listCreditors c3db 1 ∧
    c3r.total_amount = (c3r.items.map Item.amount).sum ∧
    c3r.total_amount = 100 :=
  ⟨by decide, ((list_total_amount_exact c3db 1 c3r).1 (by decide)).1, by decide⟩

/-- The debtor row of the C4 witness. -/
def c4deb : Party :=
  { id := 1, userId := 1, full_name := "Eve", contact := "", gender := "female",
    language := "english" }

/-- State for the C4 witness: debtor 1 with pending 70, partial 30, paid
50. -/
def c4db : DB :=
  { creditors := [], creditorItems := []
    debtors := [c4deb]
    debtorItems :=
      [{ parentId := 1, reason := "a", amount := 70, date_incurred := none,
         due_date := none, status := "pending", notes := "" },
       { parentId := 1, reason := "b", amount := 30, date_incurred := none,
         due_date := none, status := "partial", notes := "" },
       { parentId := 1, reason := "c", amount := 50, date_incurred := none,
         due_date := none, status := "paid", notes := "" }]
    payments := [] }

/-- The record listed for the C4 witness debtor. -/
def c4r : EnrichedParty := enrich c4db.debtorItems c4deb

/-- Witness for C4: a listed record whose pending amount is the sum over
the pending items alone (70, not 150). -/
theorem list_pending_amount_exact_w :
    c4r ∈ listDebtors c4db 1 ∧
    c4r.pending_amount =
      (((c4r.items.filter fun i => i.status == "pending").map Item.amount)).sum ∧
    c4r.pending_amount = 70 :=
  ⟨by decide, ((list_pending_amount_exact c4db 1 c4r).2 (by decide)).1, by decide⟩

/-- State for the C5 witness: one pending creditor item of 50 and no
debtors, so the net position is negative. -/
def c5db : DB :=
  { creditors := [{ id := 1, userId := 1, full_name := "Carl", contact := "",
                    gender := "male", language := "english" }]
    creditorItems := [{ parentId := 1, reason := "rent", amount := 50,
                        date_incurred := none, due_date := none,
                        status := "pending", notes := "" }]
    debtors := [], debtorItems := [], payments := [] }

/-- Witness for C5: with no debtor rows the debtor total defaults to 0 and
the net position is the negative creditor total. -/
theorem dashboard_net_and_defaults_w :
    (∀ p ∈ c5db.debtors, p.userId ≠ 1) ∧
    (dashboardStats c5db 1).total_owed_by_debtors = 0 ∧
    (dashboardStats c5db 1).net_position = -50 :=
  ⟨by decide, (dashboard_net_and_defaults c5db 1).2.2 (by decide), by decide⟩

/-- Users table for the C7 witness. -/
def c7users : List User :=
  [{ id := 1, username := "admin", email := "admin@ghouenzen.com",
     password_hash := bcryptHash "12345", full_name := "Administrator",
     phone := "", address := "", is_admin := true, must_change_password := true }]

/-- Witness for C7: the four-character password "abc" is rejected by both
routes and the users table is untouched. -/
theorem weak_password_rejected_w :
    ("abc".length < 5) ∧
    changePassword c7users 1 "12345" "abc" =
      (Except.error ApiErr.weakPassword, c7users) ∧
    forceChangePassword c7users 1 "abc" =
      (Except.error ApiErr.weakPassword, c7users) :=
  ⟨by decide,
    (weak_password_rejected c7users 1 "12345" "abc" (by decide)).1,
    (weak_password_rejected c7users 1 "12345" "abc" (by decide)).2⟩

/-- First payment of the C8 counterexample: date 5, created first. -/
def c8p1 : Payment :=
  { id := 1, userId := 1, ptype := "paid", related_id := none, amount := 100,
    payment_date := 5, payment_method := "", reference := "", notes := "",
    created_at := 1 }

/-- Second payment of the C8 counterexample: same date, created later. -/
def c8p2 : Payment :=
  { id := 2, userId := 1, ptype := "paid", related_id := none, amount := 200,
    payment_date := 5, payment_method := "", reference := "", notes := "",
    created_at := 2 }

/-- State for the C8 counterexample: two payments with equal dates. -/
def c8db : DB :=
  { creditors := [], creditorItems := [], debtors := [], debtorItems := []
    payments := [c8p1, c8p2] }

/-- Counterexample for C8: the part_001 listPayments (ORDER BY payment_date
DESC, no tiebreak) returns two equal-date payments with the earlier
creation first, so the output is not ordered by creation time descending
among equal dates. -/
theorem list_payments_tiebreak_cex :
    listPaymentsV2 c8db 1 = [c8p1, c8p2] ∧
    c8p1.payment_date = c8p2.payment_date ∧
    c8p1.created_at < c8p2.created_at ∧
    ¬ List.Sorted paymentLe (listPaymentsV2 c8db 1) := by
  refine ⟨by decide, rfl, by decide, by decide⟩

/-- Party for the C9 witness. -/
def c9r : Party :=
  { id := 1, userId := 1, full_name := "Awa", contact := "", gender := "female",
    language := "french" }

/-- Witness for C9: a female french record gets the title "Mme". -/
theorem statement_title_cases_w :
    (c9r.gender = "female" ∧ c9r.language = "french") ∧
    statementTitleOf c9r = "Mme" :=
  ⟨⟨rfl, rfl⟩, (statement_title_cases c9r).2.2.2 ⟨rfl, rfl⟩⟩

/-- Users table for the C10 witness. -/
def c10users : List User :=
  [{ id := 1, username := "admin", email := "admin@ghouenzen.com",
     password_hash := bcryptHash "12345", full_name := "Administrator",
     phone := "", address := "", is_admin := true, must_change_password := false },
   { id := 2, username := "amina", email := "amina@example.com",
     password_hash := bcryptHash "54321", full_name := "Amina",
     phone := "", address := "", is_admin := false, must_change_password := false }]

/-- Witness for C10: the admin cannot delete itself (table unchanged) but
can delete the other user. -/
theorem delete_user_self_guard_w :
    deleteUserRoute c10users 1 1 =
      (Except.error ApiErr.cannotDeleteSelf, c10users) ∧
    deleteUserRoute c10users 1 2 =
      (Except.ok (), c10users.filter fun w => w.id != 2) :=
  ⟨(delete_user_self_guard c10users 1 1).1 rfl,
    (delete_user_self_guard c10users 1 2).2.1 (by decide)⟩
